import Mathlib

/-!
Verification of the database-agent core of the `vercel-sdk-ai-agent`
repository: the Request Segmenter (`analyze_request`), the Schema Compiler
(`create_schema` / `create_multiple_schemas`), the file editor
(`edit_file`), the Endpoint and Hook compilers, and the tool-dispatch loop
configured in `src/agent/core.ts`.  Each definition is a shallow embedding
of the corresponding TypeScript function; JavaScript string operations are
modelled on `List Char`.
-/

namespace VercelAgent

/-- JavaScript `s.charAt(0).toUpperCase() + s.slice(1)` on a character list:
uppercase the first character, keep the rest. -/
def capFirstL : List Char → List Char
  | [] => []
  | c :: cs => Char.toUpper c :: cs

/-- The `capitalizedName` computation used throughout the repository
(`tableName.charAt(0).toUpperCase() + tableName.slice(1)`,
`src/utils/agent.ts` line 510, `src/unnamed/part_000` lines 91-96 and 402-403). -/
def capitalizedName (s : String) : String := String.mk (capFirstL s.toList)

/-- JavaScript `String.prototype.split` with a one-character separator. -/
def splitChar (sep : Char) : List Char → List (List Char)
  | [] => [[]]
  | c :: cs =>
    let r := splitChar sep cs
    if c == sep then [] :: r
    else
      match r with
      | [] => [[c]]
      | h :: t => (c :: h) :: t

/-- JavaScript `Array.prototype.join(sep)`. -/
def joinSep (sep : String) : List String → String
  | [] => ""
  | [a] => a
  | a :: b :: rest => a ++ sep ++ joinSep sep (b :: rest)

/-- JavaScript `s.includes(pat)` on character lists. -/
def containsSub (s pat : List Char) : Bool :=
  match s with
  | [] => pat.isEmpty
  | _ :: rest => pat.isPrefixOf s || containsSub rest pat

/-- JavaScript `s.includes(sub)` on strings. -/
def includes (s sub : String) : Bool := containsSub s.toList sub.toList

/-- JavaScript `s.toLowerCase()` (ASCII, as used on the request strings). -/
def lowerStr (s : String) : String := String.mk (s.toList.map Char.toLower)

/-- Split a generated artifact into its lines (used to state layout claims). -/
def linesOf (s : String) : List String := (splitChar '\n' s.toList).map String.mk

/-- One field description as accepted by the schema tools
(`z.object({ name, type, constraints })`). -/
structure Field where
  name : String
  type : String
  constraints : List String
deriving DecidableEq, Repr

/-- One entity description as produced by `analyze_request` and consumed by
`create_multiple_schemas`. -/
structure Entity where
  name : String
  description : String
  fields : List Field
deriving DecidableEq, Repr

/-! ## Schema Compiler, single-entity path (`create_schema`, `src/unnamed/part_000` lines 29-123) -/

/-- The field-type switch of `create_schema` (`src/unnamed/part_000` lines 40-60). -/
def columnTypeSingle (t : String) : String :=
  if t == "string" || t == "varchar" then "varchar(255)"
  else if t == "text" then "text()"
  else if t == "number" || t == "integer" then "integer()"
  else if t == "boolean" then "boolean()"
  else if t == "timestamp" then "timestamp()"
  else "text()"

/-- The constraint switch of `create_schema` (`src/unnamed/part_000` lines 63-75). -/
def constraintSingle (c : String) : String :=
  if c == "notNull" then ".notNull()"
  else if c == "primaryKey" then ".primaryKey()"
  else if c == "unique" then ".unique()"
  else ""

/-- The `forEach` loop appending constraint builders in list order. -/
def constraintsSuffixSingle : List String → String
  | [] => ""
  | c :: cs => constraintSingle c ++ constraintsSuffixSingle cs

/-- One generated field line of `create_schema`. -/
def fieldDefSingle (f : Field) : String :=
  "  " ++ f.name ++ ": " ++ columnTypeSingle f.type ++
    constraintsSuffixSingle f.constraints ++ ","

/-- `fields.map(...).join("\n")` in `create_schema`. -/
def fieldDefinitionsSingle (fields : List Field) : String :=
  joinSep "\n" (fields.map fieldDefSingle)

/-- The import line emitted by `create_schema` (`src/unnamed/part_000` line 34). -/
def schemaImportsSingle : String :=
  "import \x7b pgTable, serial, text, timestamp, varchar, integer, boolean \x7d from 'drizzle-orm/pg-core';"

/-- The `schemaContent` template literal of `create_schema`
(`src/unnamed/part_000` lines 82-97), with the interpolations spelled out. -/
def create_schema_content (tableName : String) (fields : List Field) : String :=
  schemaImportsSingle ++ "\n" ++ "\n" ++
  "export const " ++ tableName ++ " = pgTable('" ++ tableName ++ "', \x7b" ++ "\n" ++
  "  id: serial('id').primaryKey()," ++ "\n" ++
  fieldDefinitionsSingle fields ++ "\n" ++
  "  createdAt: timestamp('created_at').defaultNow().notNull()," ++ "\n" ++
  "  updatedAt: timestamp('updated_at').defaultNow().notNull()," ++ "\n" ++
  "\x7d);" ++ "\n" ++ "\n" ++
  "export type " ++ capitalizedName tableName ++ " = typeof " ++ tableName ++ ".$inferSelect;" ++ "\n" ++
  "export type New" ++ capitalizedName tableName ++ " = typeof " ++ tableName ++ ".$inferInsert;" ++ "\n"

/-- The value returned by `create_schema` on its success path; the pure part of
the tool never throws, so `success` is always `true` and `content` records the
text written to `schemaPath/tableName.ts`. -/
structure CreateSchemaResult where
  success : Bool
  tableName : String
  path : String
  fieldsCreated : Nat
  content : String
deriving DecidableEq, Repr

/-- The `create_schema` tool (`src/unnamed/part_000` lines 29-122). -/
def create_schema (tableName : String) (fields : List Field) (schemaPath : String) :
    CreateSchemaResult :=
  { success := true
    tableName := tableName
    path := schemaPath ++ "/" ++ tableName ++ ".ts"
    fieldsCreated := fields.length
    content := create_schema_content tableName fields }

/-! ### Line-level layout of the generated schema -/

/-- The lines of the generated schema that precede the user fields: imports,
a blank line, the table opening, and the implicit `id` primary-key line. -/
def schemaHeaderLines (t : String) : List String :=
  [schemaImportsSingle,
   "",
   "export const " ++ t ++ " = pgTable('" ++ t ++ "', \x7b",
   "  id: serial('id').primaryKey(),"]

/-- The user-field block as lines: one line per field, or (for an empty field
list) the single empty line the template leaves behind. -/
def schemaUserLines (fields : List Field) : List String :=
  match fields with
  | [] => [""]
  | f :: fs => (f :: fs).map fieldDefSingle

/-- The lines of the generated schema that follow the user fields: the two
implicit timestamp lines, the table closing, and the type exports. -/
def schemaTrailerLines (t : String) : List String :=
  ["  createdAt: timestamp('created_at').defaultNow().notNull(),",
   "  updatedAt: timestamp('updated_at').defaultNow().notNull(),",
   "\x7d);",
   "",
   "export type " ++ capitalizedName t ++ " = typeof " ++ t ++ ".$inferSelect;",
   "export type New" ++ capitalizedName t ++ " = typeof " ++ t ++ ".$inferInsert;",
   ""]

theorem joinSep_cons (sep a : String) (l : List String) (h : l ≠ []) :
    joinSep sep (a :: l) = a ++ sep ++ joinSep sep l := by
  cases l with
  | nil => exact absurd rfl h
  | cons b t => rfl

theorem joinSep_append (sep : String) (xs ys : List String) (hx : xs ≠ []) (hy : ys ≠ []) :
    joinSep sep (xs ++ ys) = joinSep sep xs ++ sep ++ joinSep sep ys := by
  induction xs with
  | nil => exact absurd rfl hx
  | cons a t ih =>
    cases t with
    | nil =>
      rw [List.singleton_append, joinSep_cons sep a ys hy]
      rfl
    | cons b t' =>
      rw [List.cons_append,
          joinSep_cons sep a ((b :: t') ++ ys) (by simp),
          ih (by simp),
          joinSep_cons sep a (b :: t') (by simp)]
      simp [String.append_assoc]

/-- Helper: the generated schema text is exactly the header lines, then the
user-field lines, then the trailer lines, joined by newlines. -/
theorem create_schema_content_eq_lines (t : String) (fields : List Field) :
    create_schema_content t fields =
      joinSep "\n" (schemaHeaderLines t ++ schemaUserLines fields ++ schemaTrailerLines t) := by
  have hu : schemaUserLines fields ≠ [] := by
    cases fields <;> simp [schemaUserLines]
  rw [joinSep_append "\n" (schemaHeaderLines t ++ schemaUserLines fields) (schemaTrailerLines t)
        (by simp [schemaHeaderLines]) (by simp [schemaTrailerLines]),
      joinSep_append "\n" (schemaHeaderLines t) (schemaUserLines fields)
        (by simp [schemaHeaderLines]) hu]
  cases fields with
  | nil =>
    simp only [schemaHeaderLines, schemaUserLines, schemaTrailerLines, joinSep,
      create_schema_content, fieldDefinitionsSingle, List.map_nil,
      String.append_assoc, String.append_empty, String.empty_append]
  | cons f fs =>
    simp only [schemaHeaderLines, schemaUserLines, schemaTrailerLines, joinSep,
      create_schema_content, fieldDefinitionsSingle,
      String.append_assoc, String.append_empty, String.empty_append]

/-- C1 (counterexample). For the entity `albums` with the single user field
`title`, the generated schema text places the implicit primary-key `id` line
(line index 3) BEFORE the user field line (line index 4), refuting the claim
that all three implicit fields appear after all user-supplied fields. -/
theorem create_schema_id_before_user_fields :
    (linesOf (create_schema_content "albums" [⟨"title", "varchar", ["notNull"]⟩])).indexOf
        "  id: serial('id').primaryKey()," = 3 ∧
    (linesOf (create_schema_content "albums" [⟨"title", "varchar", ["notNull"]⟩])).indexOf
        "  title: varchar(255).notNull()," = 4 ∧
    "  id: serial('id').primaryKey()," ∈
      linesOf (create_schema_content "albums" [⟨"title", "varchar", ["notNull"]⟩]) := by
  decide

/-- C1 (amended). For every entity name and every field list (including the
empty list) the schema artifact is exactly: the header lines ending in the one
implicit primary-key `id` line, then the user-field lines in order, then the
trailer starting with the two implicit not-null default-now timestamp lines
`createdAt` and `updatedAt`.  So the artifact contains exactly one implicit
primary-key line and exactly two implicit timestamp lines, with the timestamps
after the user fields but `id` before them. -/
theorem create_schema_implicit_fields_layout (t : String) (fields : List Field) :
    create_schema_content t fields =
      joinSep "\n" (schemaHeaderLines t ++ schemaUserLines fields ++ schemaTrailerLines t) ∧
    schemaHeaderLines t =
      [schemaImportsSingle, "",
       "export const " ++ t ++ " = pgTable('" ++ t ++ "', \x7b",
       "  id: serial('id').primaryKey(),"] ∧
    schemaTrailerLines t =
      ["  createdAt: timestamp('created_at').defaultNow().notNull(),",
       "  updatedAt: timestamp('updated_at').defaultNow().notNull(),",
       "\x7d);", "",
       "export type " ++ capitalizedName t ++ " = typeof " ++ t ++ ".$inferSelect;",
       "export type New" ++ capitalizedName t ++ " = typeof " ++ t ++ ".$inferInsert;",
       ""] :=
  ⟨create_schema_content_eq_lines t fields, rfl, rfl⟩

/-- C2 (counterexample). A user field named `id` is not rejected:
`create_schema` succeeds and the artifact for table `users` contains two
`id:` column lines (the implicit one and the user one), so the reserved-name
collision passes through without a naming-conflict error. -/
theorem create_schema_accepts_reserved_id_name :
    (create_schema "users" [⟨"id", "integer", []⟩] "src/database/schemas").success = true ∧
    (linesOf (create_schema_content "users" [⟨"id", "integer", []⟩])).countP
        (fun l => List.isPrefixOf "  id: ".toList l.toList) = 2 := by
  constructor
  · rfl
  · decide

/-- C2 (amended). The Schema Compiler never rejects any input: for every
table name and field list — reserved names `id`, `createdAt`, `updatedAt`
included — `create_schema` reports success, and every user field is rendered
unchanged as its own column line in the user-field block of the artifact. -/
theorem create_schema_never_rejects (t sp : String) (fields : List Field) (f : Field)
    (hf : f ∈ fields) :
    (create_schema t fields sp).success = true ∧
    fieldDefSingle f ∈ schemaUserLines fields ∧
    create_schema_content t fields =
      joinSep "\n" (schemaHeaderLines t ++ schemaUserLines fields ++ schemaTrailerLines t) := by
  refine ⟨rfl, ?_, create_schema_content_eq_lines t fields⟩
  cases fields with
  | nil => cases hf
  | cons g gs => exact List.mem_map_of_mem fieldDefSingle hf

/-- C2 witness: the reserved name `id` in a concrete field list is accepted. -/
theorem create_schema_never_rejects_witness :
    (⟨"id", "integer", []⟩ : Field) ∈ [(⟨"id", "integer", []⟩ : Field)] ∧
    (create_schema "users" [⟨"id", "integer", []⟩] "src/database/schemas").success = true ∧
    fieldDefSingle ⟨"id", "integer", []⟩ ∈ schemaUserLines [⟨"id", "integer", []⟩] ∧
    create_schema_content "users" [⟨"id", "integer", []⟩] =
      joinSep "\n" (schemaHeaderLines "users" ++ schemaUserLines [⟨"id", "integer", []⟩] ++
        schemaTrailerLines "users") :=
  ⟨by decide,
   create_schema_never_rejects "users" "src/database/schemas" [⟨"id", "integer", []⟩]
     ⟨"id", "integer", []⟩ (by decide)⟩

/-- C8. The Schema Compiler is a pure function of its input: two invocations
of `create_schema` on equal table names, field lists and target paths return
equal results, in particular byte-identical artifact content. -/
theorem create_schema_deterministic (t₁ t₂ sp₁ sp₂ : String) (fs₁ fs₂ : List Field)
    (ht : t₁ = t₂) (hf : fs₁ = fs₂) (hs : sp₁ = sp₂) :
    create_schema t₁ fs₁ sp₁ = create_schema t₂ fs₂ sp₂ ∧
    (create_schema t₁ fs₁ sp₁).content = (create_schema t₂ fs₂ sp₂).content := by
  subst ht; subst hf; subst hs; exact ⟨rfl, rfl⟩

/-- C8 witness: determinism applied at the `popular_albums` entity. -/
theorem create_schema_deterministic_witness :
    create_schema "popular_albums" [⟨"title", "varchar", ["notNull"]⟩] "src/database/schemas" =
      create_schema "popular_albums" [⟨"title", "varchar", ["notNull"]⟩] "src/database/schemas" :=
  (create_schema_deterministic "popular_albums" "popular_albums"
    "src/database/schemas" "src/database/schemas"
    [⟨"title", "varchar", ["notNull"]⟩] [⟨"title", "varchar", ["notNull"]⟩] rfl rfl rfl).1

/-! ## Schema Compiler, batch path (`create_multiple_schemas`, `src/utils/agent.ts` lines 442-555) -/

/-- The field-type switch of `create_multiple_schemas`
(`src/utils/agent.ts` lines 477-495): unlike the single path it has no
`string`/`number` aliases. -/
def columnTypeMulti (t : String) : String :=
  if t == "varchar" then "varchar(255)"
  else if t == "text" then "text()"
  else if t == "integer" then "integer()"
  else if t == "boolean" then "boolean()"
  else if t == "timestamp" then "timestamp()"
  else "text()"

/-- The constraint mapping of `create_multiple_schemas`
(`src/utils/agent.ts` lines 497-503): two independent `if`s, for `notNull`
and `primaryKey` only. -/
def constraintMulti (c : String) : String :=
  (if c == "notNull" then ".notNull()" else "") ++
  (if c == "primaryKey" then ".primaryKey()" else "")

/-- The `forEach` loop appending batch-path constraint builders in order. -/
def constraintsSuffixMulti : List String → String
  | [] => ""
  | c :: cs => constraintMulti c ++ constraintsSuffixMulti cs

/-- One generated field line of `create_multiple_schemas`. -/
def fieldDefMulti (f : Field) : String :=
  "  " ++ f.name ++ ": " ++ columnTypeMulti f.type ++
    constraintsSuffixMulti f.constraints ++ ","

/-- `entity.fields.map(...).join("\n")` in `create_multiple_schemas`. -/
def fieldDefinitionsMulti (fields : List Field) : String :=
  joinSep "\n" (fields.map fieldDefMulti)

/-- The `schemaContent` template literal of `create_multiple_schemas`
(`src/utils/agent.ts` lines 513-529). -/
def create_multiple_schemas_content (entity : Entity) : String :=
  "import \x7b pgTable, serial, text, timestamp, varchar, integer, boolean \x7d from \"drizzle-orm/pg-core\";" ++ "\n" ++
  "import \x7b createInsertSchema, createSelectSchema \x7d from \"drizzle-zod\";" ++ "\n" ++ "\n" ++
  "export const " ++ entity.name ++ " = pgTable(\"" ++ entity.name ++ "\", \x7b" ++ "\n" ++
  "  id: serial(\"id\").primaryKey()," ++ "\n" ++
  fieldDefinitionsMulti entity.fields ++ "\n" ++
  "  createdAt: timestamp(\"created_at\").defaultNow().notNull()," ++ "\n" ++
  "  updatedAt: timestamp(\"updated_at\").defaultNow().notNull()," ++ "\n" ++
  "\x7d);" ++ "\n" ++ "\n" ++
  "// Zod schemas for validation" ++ "\n" ++
  "export const insert" ++ capitalizedName entity.name ++ "Schema = createInsertSchema(" ++ entity.name ++ ");" ++ "\n" ++
  "export const select" ++ capitalizedName entity.name ++ "Schema = createSelectSchema(" ++ entity.name ++ ");" ++ "\n" ++ "\n" ++
  "export type Insert" ++ capitalizedName entity.name ++ " = typeof " ++ entity.name ++ ".$inferInsert;" ++ "\n" ++
  "export type Select" ++ capitalizedName entity.name ++ " = typeof " ++ entity.name ++ ".$inferSelect;" ++ "\n"

/-- The constraints that the batch path actually maps to output text. -/
def isMappedMulti (c : String) : Bool := c == "notNull" || c == "primaryKey"

/-- Dropping every constraint other than `notNull`/`primaryKey` from a field
leaves its batch-path rendering unchanged. -/
theorem constraintsSuffixMulti_filter (cs : List String) :
    constraintsSuffixMulti (cs.filter isMappedMulti) = constraintsSuffixMulti cs := by
  induction cs with
  | nil => rfl
  | cons c cs ih =>
    by_cases h : isMappedMulti c = true
    · rw [List.filter_cons_of_pos h]
      simp only [constraintsSuffixMulti, ih]
    · rw [List.filter_cons_of_neg (by simpa using h)]
      have hzero : constraintMulti c = "" := by
        simp only [isMappedMulti, Bool.or_eq_true, beq_iff_eq, not_or] at h
        push_neg at h
        simp [constraintMulti, if_neg h.1, if_neg h.2]
      simp only [constraintsSuffixMulti, ih, hzero, String.empty_append]

/-- Erase constraints the batch path does not map (`unique` among them). -/
def eraseUnmapped (f : Field) : Field :=
  { f with constraints := f.constraints.filter isMappedMulti }

/-- C9. In the batch compiler `create_multiple_schemas`, a `unique`
constraint (or any constraint other than `notNull`/`primaryKey`) never
produces any marker in the generated text: erasing all such constraints from
every field leaves the batch artifact byte-identical.  The single-entity
compiler `create_schema` does map `unique`, so the two paths render the same
field differently: for `email: varchar unique`, the single path emits
`.unique()` while the batch path emits nothing. -/
theorem multi_schema_ignores_unique_constraint (entity : Entity) :
    create_multiple_schemas_content
        { entity with fields := entity.fields.map eraseUnmapped } =
      create_multiple_schemas_content entity ∧
    fieldDefSingle ⟨"email", "varchar", ["unique"]⟩ = "  email: varchar(255).unique()," ∧
    fieldDefMulti ⟨"email", "varchar", ["unique"]⟩ = "  email: varchar(255)," ∧
    fieldDefSingle ⟨"email", "varchar", ["unique"]⟩ ≠
      fieldDefMulti ⟨"email", "varchar", ["unique"]⟩ := by
  refine ⟨?_, by decide, by decide, by decide⟩
  have hf : ∀ f : Field, fieldDefMulti (eraseUnmapped f) = fieldDefMulti f := by
    intro f
    simp only [fieldDefMulti, eraseUnmapped, constraintsSuffixMulti_filter]
  simp only [create_multiple_schemas_content, fieldDefinitionsMulti, List.map_map]
  have : entity.fields.map (fieldDefMulti ∘ eraseUnmapped) = entity.fields.map fieldDefMulti :=
    List.map_congr_left (fun f _ => hf f)
  rw [this]

/-! ## Request Segmenter (`analyze_request`, `src/utils/agent.ts` lines 346-440) -/

/-- The entity template pushed for the trigger `"made for you"`. -/
def madeForYouEntity : Entity :=
  { name := "made_for_you_playlists"
    description := "Personalized playlists curated for the user"
    fields :=
      [⟨"title", "varchar", ["notNull"]⟩,
       ⟨"description", "text", []⟩,
       ⟨"imageUrl", "varchar", []⟩,
       ⟨"playlistType", "varchar", []⟩,
       ⟨"trackCount", "integer", []⟩] }

/-- The entity template pushed for the triggers `"popular albums"`/`"popular album"`. -/
def popularAlbumsEntity : Entity :=
  { name := "popular_albums"
    description := "Popular albums trending or featured"
    fields :=
      [⟨"title", "varchar", ["notNull"]⟩,
       ⟨"artist", "varchar", ["notNull"]⟩,
       ⟨"imageUrl", "varchar", []⟩,
       ⟨"releaseYear", "integer", []⟩,
       ⟨"genre", "varchar", []⟩,
       ⟨"popularity", "integer", []⟩] }

/-- The entity template pushed for the triggers `"recently played"`/`"recent"`. -/
def recentlyPlayedEntity : Entity :=
  { name := "recently_played_songs"
    description := "Songs recently played by the user"
    fields :=
      [⟨"title", "varchar", ["notNull"]⟩,
       ⟨"artist", "varchar", ["notNull"]⟩,
       ⟨"album", "varchar", []⟩,
       ⟨"duration", "integer", []⟩,
       ⟨"playedAt", "timestamp", ["notNull"]⟩] }

/-- The generic fallback entity for bare `"album"`/`"albums"` requests. -/
def albumsEntity : Entity :=
  { name := "albums"
    description := "General album information"
    fields :=
      [⟨"title", "varchar", ["notNull"]⟩,
       ⟨"artist", "varchar", ["notNull"]⟩,
       ⟨"imageUrl", "varchar", []⟩,
       ⟨"category", "varchar", []⟩] }

/-- The `analyze_request` tool: lowercase the request, push one entity per
matching trigger group in the fixed order of the source, then the generic
`albums` fallback only when nothing matched. -/
def analyze_request (userRequest : String) : List Entity :=
  let request := lowerStr userRequest
  let entities :=
    (if includes request "made for you" then [madeForYouEntity] else []) ++
    (if includes request "popular albums" || includes request "popular album" then
      [popularAlbumsEntity] else []) ++
    (if includes request "recently played" || includes request "recent" then
      [recentlyPlayedEntity] else [])
  if (includes request "album" && entities.length == 0) ||
     (includes request "albums" && entities.length == 0) then
    entities ++ [albumsEntity]
  else
    entities

/-- The number of distinct trigger groups of `analyze_request` that a request
matches (the three groups share their lowercased-request test with the code). -/
def matchedTriggerCount (userRequest : String) : Nat :=
  let request := lowerStr userRequest
  (if includes request "made for you" then 1 else 0) +
  (if includes request "popular albums" || includes request "popular album" then 1 else 0) +
  (if includes request "recently played" || includes request "recent" then 1 else 0)

/-- C4. For every request matching at least two distinct trigger groups, the
Request Segmenter returns exactly one EntitySpec per matched group — never a
single merged spec. -/
theorem analyze_request_one_entity_per_trigger (s : String)
    (h : 2 ≤ matchedTriggerCount s) :
    (analyze_request s).length = matchedTriggerCount s := by
  unfold analyze_request matchedTriggerCount at *
  cases h1 : includes (lowerStr s) "made for you" <;>
    cases h2 : (includes (lowerStr s) "popular albums" ||
        includes (lowerStr s) "popular album") <;>
      cases h3 : (includes (lowerStr s) "recently played" ||
          includes (lowerStr s) "recent") <;>
        simp [h1, h2, h3] at h ⊢

/-- C4 witness: the two-trigger test request from the repository assignment
yields exactly two EntitySpecs. -/
theorem analyze_request_one_entity_per_trigger_witness :
    2 ≤ matchedTriggerCount "Can you store the 'Made for you' and 'Popular albums' in a table" ∧
    (analyze_request "Can you store the 'Made for you' and 'Popular albums' in a table").length =
      matchedTriggerCount "Can you store the 'Made for you' and 'Popular albums' in a table" :=
  ⟨by decide,
   analyze_request_one_entity_per_trigger
     "Can you store the 'Made for you' and 'Popular albums' in a table" (by decide)⟩

/-! ## File editor (`edit_file`, `src/agent/tools/file-tools.ts` lines 60-95) -/

/-- JavaScript `String.prototype.replace` with a string pattern on character
lists: replace the first occurrence of `pat` (an empty pattern matches at the
start), leave the text unchanged when there is no occurrence. -/
def replaceFirst (s pat rep : List Char) : List Char :=
  match s with
  | [] => if pat.isEmpty then rep else []
  | c :: cs =>
    if pat.isPrefixOf (c :: cs) then rep ++ (c :: cs).drop pat.length
    else c :: replaceFirst cs pat rep

/-- JavaScript `fileContents.replace(old_str, new_str)` on strings. -/
def jsReplace (s pat rep : String) : String :=
  String.mk (replaceFirst s.toList pat.toList rep.toList)

/-- The result object of `edit_file`. -/
structure EditResult where
  path : String
  success : Bool
  action : String
deriving DecidableEq, Repr

/-- The `edit_file` tool: on an existing file with a non-null `old_str` it
writes `fileContents.replace(old_str, new_str)` back and reports success;
otherwise it creates the file with `new_str`.  The returned pair is the new
file content and the result object. -/
def edit_file (fileExists : Bool) (fileContents path : String)
    (old_str : Option String) (new_str : String) : String × EditResult :=
  match fileExists, old_str with
  | true, some o => (jsReplace fileContents o new_str, ⟨path, true, "edit"⟩)
  | true, none => (new_str, ⟨path, true, "create"⟩)
  | false, _ => (new_str, ⟨path, true, "create"⟩)

/-- A pattern that does not occur is left alone by `replaceFirst`. -/
theorem replaceFirst_of_not_contains (s pat rep : List Char) (hp : pat ≠ [])
    (h : containsSub s pat = false) : replaceFirst s pat rep = s := by
  induction s with
  | nil =>
    simp only [replaceFirst]
    rw [if_neg (by simpa using hp)]
  | cons c cs ih =>
    simp only [containsSub, Bool.or_eq_false_iff] at h
    simp only [replaceFirst]
    rw [if_neg (by simp [h.1]), ih h.2]

/-- A pattern at the head of the text is replaced there, leaving the tail —
including any further occurrence — untouched. -/
theorem replaceFirst_prefix (pat rest rep : List Char) (hp : pat ≠ []) :
    replaceFirst (pat ++ rest) pat rep = rep ++ rest := by
  cases pat with
  | nil => exact absurd rfl hp
  | cons p ps =>
    simp only [List.cons_append, replaceFirst]
    rw [if_pos (by simp [List.isPrefixOf_iff_prefix])]
    simp

/-- C5 (counterexample). The find-and-replace edit neither rejects an
ambiguous pattern nor an absent one: on file content `"aa"` the pattern
`"a"` occurs twice, yet the edit succeeds and rewrites the content to
`"ba"` (first occurrence only); on content `"abc"` the pattern `"zz"` is
absent, yet the edit succeeds and silently leaves the content unchanged. -/
theorem edit_file_no_uniqueness_check :
    edit_file true "aa" "notes.txt" (some "a") "b" = ("ba", ⟨"notes.txt", true, "edit"⟩) ∧
    edit_file true "abc" "notes.txt" (some "zz") "b" = ("abc", ⟨"notes.txt", true, "edit"⟩) := by
  decide

/-- C5 (amended). On an existing file, `edit_file` always reports success:
when the target substring is absent the content is written back unchanged (a
silent no-op, not an error), and when the target occurs — even several
times — only its first occurrence is replaced, with the remainder of the
file left untouched.  No exactly-one-match check exists. -/
theorem edit_file_replace_first_semantics (contents path p r : String) (hp : p ≠ "") :
    (edit_file true contents path (some p) r).2.success = true ∧
    (containsSub contents.toList p.toList = false →
      (edit_file true contents path (some p) r).1 = contents) ∧
    (∀ rest : String,
      (edit_file true (p ++ rest) path (some p) r).1 = r ++ rest) := by
  have hpl : p.toList ≠ [] := by
    intro h
    exact hp (by cases p with | mk l => simpa [String.toList] using congrArg String.mk h)
  refine ⟨rfl, ?_, ?_⟩
  · intro h
    simp only [edit_file, jsReplace]
    rw [replaceFirst_of_not_contains contents.toList p.toList r.toList hpl h]
    cases contents with
    | mk l => rfl
  · intro rest
    simp only [edit_file, jsReplace]
    have : (p ++ rest).toList = p.toList ++ rest.toList := by
      cases p with
      | mk l => cases rest with
        | mk l' => rfl
    rw [this, replaceFirst_prefix p.toList rest.toList r.toList hpl]
    cases r with
    | mk l => cases rest with
      | mk l' => rfl

/-- C5 witness: concrete replace-first behaviour, with the pattern occurring
again later in the file. -/
theorem edit_file_replace_first_semantics_witness :
    ("ab" : String) ≠ "" ∧
    (edit_file true "xyz" "notes.txt" (some "ab") "Q").2.success = true ∧
    (containsSub "xyz".toList "ab".toList = false →
      (edit_file true "xyz" "notes.txt" (some "ab") "Q").1 = "xyz") ∧
    (∀ rest : String,
      (edit_file true ("ab" ++ rest) "notes.txt" (some "ab") "Q").1 = "Q" ++ rest) :=
  ⟨by decide, edit_file_replace_first_semantics "xyz" "notes.txt" "ab" "Q" (by decide)⟩

/-! ## Endpoint Compiler (`create_api_endpoint`, `src/agent/tools/api-tools.ts` lines 6-147)

The GET handler text emitted for a table (lines 34-50) is, fixed up to the
table name:

    const id = searchParams.get('id');
    if (id) {
      const result = await db.select().from(T).where(eq(T.id, parseInt(id)));
      return NextResponse.json(result[0] || null);
    }
    const results = await db.select().from(T);
    return NextResponse.json(results);

`getHandlerSem` below is the semantics of that fixed text: the table is a
list of rows, the identifier query parameter is the parsed `id` (or `none`
when absent), and the response is a JSON body paired with the HTTP status
(`NextResponse.json` without options responds 200). -/

/-- One row of the entity's table, as seen by the generated handler. -/
structure DbRecord where
  id : Int
  columns : List (String × String)
deriving DecidableEq, Repr

/-- The JSON body shapes a generated GET handler can respond with. -/
inductive GetResponseBody where
  | null
  | record (r : DbRecord)
  | collection (rs : List DbRecord)
deriving DecidableEq, Repr

/-- Semantics of the generated GET handler: with an `id` parameter it selects
the rows whose `id` column matches and responds with the first one, or with
JSON `null` (`result[0] || null`) when there is none; without the parameter it
responds with the whole collection.  Both branches respond with status 200. -/
def getHandlerSem (table : List DbRecord) (idParam : Option Int) :
    GetResponseBody × Nat :=
  match idParam with
  | some i =>
    match (table.filter (fun r => r.id == i)).head? with
    | some r => (GetResponseBody.record r, 200)
    | none => (GetResponseBody.null, 200)
  | none => (GetResponseBody.collection table, 200)

/-- C6 (counterexample). A GET with an identifier that matches no record
responds with JSON `null` and status 200 — the very status of the successful
collection read — so the generated read handler carries no not-found status
classification. -/
theorem get_handler_unmatched_id_status_200 :
    getHandlerSem [] (some 1) = (GetResponseBody.null, 200) ∧
    getHandlerSem [] none = (GetResponseBody.collection [], 200) ∧
    (getHandlerSem [] (some 1)).2 = (getHandlerSem [] none).2 ∧
    (getHandlerSem [] (some 1)).2 ≠ 404 := by
  decide

/-- C6 (amended). For every table and identifier matching no record, the
generated read handler responds with JSON `null` at status 200: the body is
distinguishable from the empty collection `[]` that the parameterless read
returns, but the response carries the same 200 success status, not a
not-found status classification. -/
theorem get_handler_unmatched_id_null_200 (table : List DbRecord) (i : Int)
    (h : table.filter (fun r => r.id == i) = []) :
    getHandlerSem table (some i) = (GetResponseBody.null, 200) ∧
    getHandlerSem table none = (GetResponseBody.collection table, 200) ∧
    GetResponseBody.null ≠ GetResponseBody.collection table ∧
    (getHandlerSem table (some i)).2 = (getHandlerSem table none).2 := by
  refine ⟨?_, rfl, by simp, ?_⟩
  · simp only [getHandlerSem, h, List.head?_nil]
  · simp only [getHandlerSem, h, List.head?_nil]

/-- C6 witness: a one-row table queried for an id it does not contain. -/
theorem get_handler_unmatched_id_null_200_witness :
    ([⟨(5 : Int), []⟩] : List DbRecord).filter (fun r => r.id == (7 : Int)) = [] ∧
    getHandlerSem [⟨(5 : Int), []⟩] (some 7) = (GetResponseBody.null, 200) :=
  ⟨by decide,
   (get_handler_unmatched_id_null_200 [⟨(5 : Int), []⟩] 7 (by decide)).1⟩

/-! ## Identifier derivation for hooks and types
(`create_api_client_hook`, `src/agent/tools/api-tools.ts` lines 223-246) -/

/-- The `hookName` computation of `create_api_client_hook`:
`"use" + endpoint.split("-").map(w => w.charAt(0).toUpperCase() + w.slice(1)).join("")`. -/
def hookNameFor (endpoint : String) : String :=
  "use" ++ String.mk (((splitChar '-' endpoint.toList).map capFirstL).flatten)

/-- Modelled from the spec: PascalCase of a separator-joined identifier —
"every word capitalized and the separators removed" — as a one-pass state
machine (capitalize the first character and each character after a
separator, drop the separators).  Used only to compare the code's identifier
derivations against the spec's wording. -/
def pascalAux (sep : Char) : Bool → List Char → List Char
  | _, [] => []
  | cap, c :: cs =>
    if c == sep then pascalAux sep true cs
    else (if cap then c.toUpper else c) :: pascalAux sep false cs

/-- Modelled from the spec: PascalCase of a `sep`-separated identifier. -/
def pascalCase (sep : Char) (s : String) : String :=
  String.mk (pascalAux sep true s.toList)

theorem splitChar_ne_nil (sep : Char) (l : List Char) : splitChar sep l ≠ [] := by
  cases l with
  | nil => simp [splitChar]
  | cons c cs =>
    simp only [splitChar]
    by_cases h : c == sep
    · simp [h]
    · simp only [h, Bool.false_eq_true, if_false]
      cases hr : splitChar sep cs <;> simp

/-- Split-capitalize-join agrees with the PascalCase state machine: the first
conjunct starts a word (capitalizing), the second is inside a word. -/
theorem splitChar_capFirst_flatten (sep : Char) (l : List Char) :
    (((splitChar sep l).map capFirstL).flatten = pascalAux sep true l) ∧
    ((splitChar sep l).headD [] ++ (((splitChar sep l).drop 1).map capFirstL).flatten =
      pascalAux sep false l) := by
  induction l with
  | nil => exact ⟨rfl, rfl⟩
  | cons c cs ih =>
    by_cases h : c == sep
    · have hc : c = sep := by simpa using h
      constructor
      · simp only [splitChar, h, if_true, List.map_cons, List.flatten_cons, capFirstL,
          List.nil_append, pascalAux, hc]
        simpa using ih.1
      · simp only [splitChar, h, if_true, List.headD_cons, List.drop_succ_cons,
          List.drop_zero, List.nil_append, pascalAux, hc]
        simpa using ih.1
    · obtain ⟨h', t', ht⟩ : ∃ h' t', splitChar sep cs = h' :: t' := by
        cases hr : splitChar sep cs with
        | nil => exact absurd hr (splitChar_ne_nil sep cs)
        | cons a b => exact ⟨a, b, rfl⟩
      have ih2 := ih.2
      rw [ht] at ih2
      simp only [List.headD_cons, List.drop_succ_cons, List.drop_zero] at ih2
      have hsplit : splitChar sep (c :: cs) = (c :: h') :: t' := by
        simp only [splitChar]
        rw [ht, if_neg h]
      constructor
      · rw [hsplit]
        simp only [List.map_cons, List.flatten_cons, capFirstL, pascalAux]
        rw [if_neg h, if_pos trivial, List.cons_append, ih2]
      · rw [hsplit]
        simp only [List.headD_cons, List.drop_succ_cons, List.drop_zero, pascalAux]
        rw [if_neg h, if_neg (by simp), List.cons_append, ih2]

/-- Outside a separator, the inside-a-word state machine is the identity. -/
theorem pascalAux_false_of_not_mem (sep : Char) (l : List Char) (h : sep ∉ l) :
    pascalAux sep false l = l := by
  induction l with
  | nil => rfl
  | cons c cs ih =>
    simp only [List.mem_cons, not_or] at h
    simp only [pascalAux]
    rw [if_neg (by simp only [beq_iff_eq]; exact fun hc => h.1 hc.symm),
        if_neg (by simp), ih h.2]

/-- C7 (counterexample). The repository's `capitalizedName` (used as the
generated type name) is not PascalCase: on the canonical name
`made_for_you_playlists` it yields `Made_for_you_playlists`, not the
`MadeForYouPlaylists` the claim requires. -/
theorem capitalizedName_not_pascal_case :
    capitalizedName "made_for_you_playlists" = "Made_for_you_playlists" ∧
    pascalCase '_' "made_for_you_playlists" = "MadeForYouPlaylists" ∧
    capitalizedName "made_for_you_playlists" ≠ "MadeForYouPlaylists" := by
  decide

/-- C7 (amended). The hook name is `"use"` followed by the PascalCase of the
hyphen-separated endpoint parameter (not of the canonical name), and the
generated type name `capitalizedName` uppercases only the first character —
it coincides with PascalCase of the canonical name exactly when that name
contains no underscore. -/
theorem hook_and_type_name_derivation (endpoint s : String) (hs : '_' ∉ s.toList) :
    hookNameFor endpoint = "use" ++ pascalCase '-' endpoint ∧
    capitalizedName s = pascalCase '_' s := by
  constructor
  · unfold hookNameFor pascalCase
    rw [(splitChar_capFirst_flatten '-' endpoint.toList).1]
  · unfold capitalizedName pascalCase
    cases hl : s.toList with
    | nil => rfl
    | cons c cs =>
      rw [hl] at hs
      simp only [List.mem_cons, not_or] at hs
      simp only [capFirstL, pascalAux]
      rw [if_neg (by simp only [beq_iff_eq]; exact fun hc => hs.1 hc.symm),
          if_pos trivial, pascalAux_false_of_not_mem '_' cs hs.2]

/-- C7 witness: the hook name for the `made-for-you-playlists` endpoint and
the type name for the underscore-free table name `albums`. -/
theorem hook_and_type_name_derivation_witness :
    '_' ∉ "albums".toList ∧
    hookNameFor "made-for-you-playlists" = "use" ++ pascalCase '-' "made-for-you-playlists" ∧
    capitalizedName "albums" = pascalCase '_' "albums" :=
  ⟨by decide, hook_and_type_name_derivation "made-for-you-playlists" "albums" (by decide)⟩

/-! ## Tool-Dispatch Orchestrator (`databaseAgent`, `src/agent/core.ts` lines 13-32)

`databaseAgent` configures one `generateText` call with the pooled tools and
`stopWhen: stepCountIs(15)`.  The multistep loop of that call — repeat: ask
the reasoning engine; if it proposes a tool call, execute it and continue;
if it emits a final answer, stop; stop in any case once 15 steps have run —
is embedded below with the engine as an oracle giving the response of each
step.  The repository keeps no workflow state, so the per-entity lifecycle
bookkeeping (`WorkflowState` of the spec, §3) is modelled from the spec on
the side, folded over the executed tool calls, purely in order to state when
a run ends with an incomplete workflow. -/

/-- A tool call the reasoning engine can propose (the tools wired into
`databaseAgent` that touch the entity lifecycle, plus an opaque rest). -/
inductive AgentToolCall where
  | analyzeRequest (userRequest : String)
  | createSchema (tableName : String) (fields : List Field)
  | runMigration (action : String)
  | createApiEndpoint (endpoint tableName : String)
  | createApiClientHook (endpoint tableName : String)
  | otherTool (name : String)
deriving DecidableEq, Repr

/-- One reasoning-engine response: a final text answer or one tool call. -/
inductive EngineResponse where
  | finalAnswer (text : String)
  | toolCall (call : AgentToolCall)
deriving DecidableEq, Repr

/-- Modelled from the spec: the lifecycle stages of one discovered entity
(WorkflowState, spec §3); absent from the repository code. -/
structure EntityStages where
  schemaWritten : Bool
  migrationGenerated : Bool
  migrationApplied : Bool
  endpointWritten : Bool
  hookWritten : Bool
deriving DecidableEq, Repr

/-- A freshly discovered entity: no stage completed. -/
def freshStages : EntityStages := ⟨false, false, false, false, false⟩

/-- All five lifecycle stages done. -/
def EntityStages.completed (s : EntityStages) : Bool :=
  s.schemaWritten && s.migrationGenerated && s.migrationApplied &&
    s.endpointWritten && s.hookWritten

/-- Modelled from the spec: per-run workflow state — the discovered entities
with their lifecycle stages. -/
def WorkflowState : Type := List (String × EntityStages)

instance : DecidableEq WorkflowState :=
  inferInstanceAs (DecidableEq (List (String × EntityStages)))

/-- A workflow is complete when every discovered entity has all stages done. -/
def workflowComplete (w : WorkflowState) : Bool :=
  (List.all w fun p => p.2.completed)

/-- Apply a stage update to the named entity. -/
def updateEntity (t : String) (f : EntityStages → EntityStages) (w : WorkflowState) :
    WorkflowState :=
  (List.map (fun p => if p.1 == t then (p.1, f p.2) else p) w)

/-- Modelled from the spec: fold one executed tool call into the workflow
state.  `analyze_request` discovers entities; `create_schema` marks the
schema stage; the migration tool marks generate/apply for every entity; the
endpoint and hook tools mark their stages for their table. -/
def stepWorkflow (w : WorkflowState) : AgentToolCall → WorkflowState
  | .analyzeRequest req =>
      (List.append w ((analyze_request req).map fun e => (e.name, freshStages)))
  | .createSchema t _ => updateEntity t (fun s => { s with schemaWritten := true }) w
  | .runMigration action =>
      if action == "generate" then
        (List.map (fun p => (p.1, { p.2 with migrationGenerated := true })) w)
      else if action == "migrate" || action == "push" then
        (List.map (fun p => (p.1, { p.2 with migrationApplied := true })) w)
      else w
  | .createApiEndpoint _ t => updateEntity t (fun s => { s with endpointWritten := true }) w
  | .createApiClientHook _ t => updateEntity t (fun s => { s with hookWritten := true }) w
  | .otherTool _ => w

/-- The outcome of one orchestration run. -/
structure RunResult where
  workflow : WorkflowState
  stepsUsed : Nat
  finishedByFinalAnswer : Bool
deriving DecidableEq

/-- The multistep loop of `generateText` as configured in `databaseAgent`:
consult the engine; a final answer ends the run at once, a tool call is
executed (here: folded into the workflow) and the loop continues until the
step budget is exhausted. -/
def runLoop (engine : Nat → EngineResponse) :
    Nat → Nat → WorkflowState → RunResult
  | 0, used, w => ⟨w, used, false⟩
  | budget + 1, used, w =>
    match engine used with
    | .finalAnswer _ => ⟨w, used, true⟩
    | .toolCall c => runLoop engine budget (used + 1) (stepWorkflow w c)

/-- The `databaseAgent` orchestration run: the loop with the configured step
budget `stepCountIs(15)` and an initially empty workflow. -/
def databaseAgent (engine : Nat → EngineResponse) : RunResult :=
  runLoop engine 15 0 []

/-- An engine that discovers the two assignment entities, writes one schema
for the first of them, and then declares itself done. -/
def earlyStopEngine : Nat → EngineResponse
  | 0 => .toolCall (.analyzeRequest "store the made for you and popular albums in a table")
  | 1 => .toolCall (.createSchema "made_for_you_playlists" madeForYouEntity.fields)
  | _ => .finalAnswer "All done."

/-- C3 (counterexample). The orchestrator accepts an early final answer: with
`earlyStopEngine` the run ends as a final answer after 2 steps — far below
the 15-step budget — while both discovered entities still have incomplete
lifecycle stages, and no corrective observation or extra loop iteration
occurs. -/
theorem databaseAgent_early_final_incomplete :
    (databaseAgent earlyStopEngine).finishedByFinalAnswer = true ∧
    (databaseAgent earlyStopEngine).stepsUsed = 2 ∧
    (databaseAgent earlyStopEngine).stepsUsed < 15 ∧
    workflowComplete (databaseAgent earlyStopEngine).workflow = false := by
  decide

/-- C3 (amended). The orchestrator stops the moment the reasoning engine
emits a final answer, regardless of the workflow state: whenever the
engine's first response is a final answer, the run terminates immediately
with zero tool steps and the workflow exactly as it started — no corrective
observation is injected and no further iteration happens.  Workflow
completion is urged only by the system prompt text, never enforced by the
loop. -/
theorem databaseAgent_accepts_early_final (engine : Nat → EngineResponse) (t : String)
    (h : engine 0 = .finalAnswer t) :
    (databaseAgent engine).finishedByFinalAnswer = true ∧
    (databaseAgent engine).stepsUsed = 0 ∧
    (databaseAgent engine).workflow = [] := by
  unfold databaseAgent runLoop
  rw [h]
  exact ⟨rfl, rfl, rfl⟩

/-- C3 witness: an engine that answers immediately is accepted at step 0. -/
theorem databaseAgent_accepts_early_final_witness :
    (fun _ => EngineResponse.finalAnswer "done") 0 = EngineResponse.finalAnswer "done" ∧
    (databaseAgent fun _ => EngineResponse.finalAnswer "done").stepsUsed = 0 :=
  ⟨rfl,
   (databaseAgent_accepts_early_final (fun _ => EngineResponse.finalAnswer "done")
     "done" rfl).2.1⟩

end VercelAgent
